import Mathlib

/-!
Verification of the nanobot WhatsApp channel (`src/nanobot/channels/whatsapp.py`)
and the email fetch tool (`src/nanobot/agent/tools/email_fetch.py`): a shallow
embedding of the bridge-message router, the group digest logger, the outbound
sender, the connection lifecycle loop, and the tool's `execute` control flow,
with theorems settling the specification's claims.
-/

namespace Nanobot

/-! ## Basic string helpers mirroring the Python operations used by the code -/

/-- Characters of `s` before the first `'@'` (Python `s.split("@")[0]` for the
one-character separator `"@"`). -/
def beforeAt (s : String) : String :=
  String.mk (s.data.takeWhile (fun c => c ≠ '@'))

/-- Replace every `'@'` by `"_at_"` on a character list
(Python `s.replace("@", "_at_")` for the one-character pattern). -/
def replaceAtChars : List Char → List Char
  | [] => []
  | c :: rest =>
    if c = '@' then '_' :: 'a' :: 't' :: '_' :: replaceAtChars rest
    else c :: replaceAtChars rest

/-- Python `s.replace("@", "_at_")`. -/
def replaceAt (s : String) : String :=
  String.mk (replaceAtChars s.data)

/-- Python `raw[:100]`: the first 100 characters. -/
def excerpt100 (raw : String) : String :=
  String.mk (raw.data.take 100)

/-- Escape `"` and `\` as Python's `json.dumps` does for ordinary text. -/
def escChars : List Char → List Char
  | [] => []
  | c :: rest =>
    if c = '"' then '\\' :: '"' :: escChars rest
    else if c = '\\' then '\\' :: '\\' :: escChars rest
    else c :: escChars rest

/-- JSON string literal for `s`. -/
def jsonStr (s : String) : String :=
  "\"" ++ String.mk (escChars s.data) ++ "\""

/-! ## Data model: decoded bridge envelope and channel configuration

`BridgeData` models a JSON object decoded from a bridge frame, with one
`Option` field per key the code reads via `data.get`; `none` is an absent
(or null) key. -/

structure BridgeData where
  type : Option String := none
  pn : Option String := none
  sender : Option String := none
  content : Option String := none
  isGroup : Option Bool := none
  id : Option String := none
  timestamp : Option Int := none
  status : Option String := none
  error : Option String := none
deriving DecidableEq, Repr

/-- The configuration fields the channel reads (`config.schema.WhatsAppConfig`). -/
structure WhatsAppConfig where
  bridge_url : String := ""
  monitor_groups : List String := []
deriving DecidableEq, Repr

/-- The mutable channel fields the router touches: the `_connected` mirror. -/
structure ChanState where
  connected : Bool
deriving DecidableEq, Repr

/-- Metadata dict passed to `_handle_message`. -/
structure Metadata where
  message_id : Option String
  timestamp : Option Int
  is_group : Bool
deriving DecidableEq, Repr

/-- One digest record: `{"ts": ..., "sender": ..., "content": ...}`. -/
structure DigestEntry where
  ts : Int
  sender : String
  content : String
deriving DecidableEq, Repr

/-- Python `json.dumps(entry)` for a digest entry (keys in insertion order,
default separators). -/
def dumpEntry (e : DigestEntry) : String :=
  "\x7b\"ts\": " ++ toString e.ts ++ ", \"sender\": " ++ jsonStr e.sender ++
    ", \"content\": " ++ jsonStr e.content ++ "\x7d"

/-- The file-system append performed by `_log_group_message`: the per-group
directory segment, the file name inside it, the structured record, and the
text line written. -/
structure GroupLogWrite where
  dir : String
  file : String
  entry : DigestEntry
  line : String
deriving DecidableEq, Repr

/-- Embedding of `_log_group_message(data)`.  `today` is
`datetime.now(timezone.utc).strftime("%Y-%m-%d")`, passed explicitly. -/
def logGroupMessage (today : String) (data : BridgeData) : GroupLogWrite :=
  let group_jid := data.sender.getD "unknown"
  let content := data.content.getD ""
  let timestamp := data.timestamp.getD 0
  let pn := data.pn.getD ""
  let entry : DigestEntry := { ts := timestamp, sender := pn, content := content }
  { dir := replaceAt group_jid
    file := today ++ ".jsonl"
    entry := entry
    line := dumpEntry entry ++ "\n" }

/-- The router's chat-identity normalization: prefer the legacy `pn` when
non-empty (Python truthiness), else the opaque `sender`, then
`user_id.split("@")[0] if "@" in user_id else user_id`. -/
def normalizeId (pn sender : String) : String :=
  let user_id := if pn ≠ "" then pn else sender
  if user_id.data.contains '@' then beforeAt user_id else user_id

/-- Observable effects of handling one bridge frame. -/
inductive Action where
  | warnInvalidJson (excerpt : String)
  | infoSender (sender : String)
  | infoVoice (sender_id : String)
  | forward (sender_id chat_id content : String) (meta : Metadata)
  | groupAppend (w : GroupLogWrite)
  | debugLoggedGroup (group_jid : String)
  | infoStatus (status : Option String)
  | infoQr
  | errorBridge (err : Option String)
deriving DecidableEq, Repr

/-- `true` exactly on a `forward` action (a call of `_handle_message`). -/
def Action.isForward : Action → Bool
  | .forward _ _ _ _ => true
  | _ => false

/-- Embedding of `_handle_bridge_message(raw)`.  `decoded` is the result of
`json.loads(raw)` read as an envelope object (`none` on `JSONDecodeError`).
Returns the new channel state and the list of effects, in program order. -/
def handleBridgeMessage (cfg : WhatsAppConfig) (today : String) (st : ChanState)
    (decoded : Option BridgeData) (raw : String) : ChanState × List Action :=
  match decoded with
  | none => (st, [.warnInvalidJson (excerpt100 raw)])
  | some data =>
    if data.type = some "message" then
      let pn := data.pn.getD ""
      let sender := data.sender.getD ""
      let content := data.content.getD ""
      let sender_id := normalizeId pn sender
      if data.isGroup.getD false then
        let group_jid := data.sender.getD ""
        let monitored := cfg.monitor_groups
        if monitored.isEmpty || monitored.contains group_jid then
          (st, [.infoSender sender, .groupAppend (logGroupMessage today data),
                .debugLoggedGroup (data.sender.getD "unknown")])
        else
          (st, [.infoSender sender])
      else
        let isVoice := content = "[Voice Message]"
        let content2 :=
          if isVoice then "[Voice Message: Transcription not available for WhatsApp yet]"
          else content
        (st, [.infoSender sender] ++ (if isVoice then [Action.infoVoice sender_id] else []) ++
          [.forward sender_id sender content2
            { message_id := data.id, timestamp := data.timestamp,
              is_group := data.isGroup.getD false }])
    else if data.type = some "status" then
      let st2 :=
        if data.status = some "connected" then { st with connected := true }
        else if data.status = some "disconnected" then { st with connected := false }
        else st
      (st2, [.infoStatus data.status])
    else if data.type = some "qr" then
      (st, [.infoQr])
    else if data.type = some "error" then
      (st, [.errorBridge data.error])
    else
      (st, [])

/-! ## Outbound sender (`send`) -/

/-- An agent-originated outbound message. -/
structure OutboundMessage where
  chat_id : String
  content : String
deriving DecidableEq, Repr

/-- The JSON payload `send` writes: `{"type": "send", "to": ..., "text": ...}`.
(`sendTo` is the `"to"` key; `to` is reserved in Lean.) -/
structure SendPayload where
  type : String
  sendTo : String
  text : String
deriving DecidableEq, Repr

/-- Observable effects of one `send` call. -/
inductive SendAction where
  | warnNotConnected
  | transportWrite (payload : SendPayload)
  | errorSending (e : String)
deriving DecidableEq, Repr

/-- Outcome of the transport write `await self._ws.send(...)`: `.ok` on
success, `.error e` when the transport raises an exception `e`. -/
inductive WriteOutcome where
  | ok
  | error (e : String)
deriving DecidableEq, Repr

/-- Embedding of `WhatsAppChannel.send(msg)`.  `wsPresent` is the truthiness of
`self._ws`, `connected` is `self._connected`, and `write` is the outcome the
transport would produce for this call.  The function is total: every Python
exception is caught inside `send`, so the embedding returns a plain action
list and no error value ever escapes to the caller. -/
def send (wsPresent connected : Bool) (msg : OutboundMessage)
    (write : WriteOutcome) : List SendAction :=
  if !wsPresent || !connected then
    [.warnNotConnected]
  else
    let payload : SendPayload := { type := "send", sendTo := msg.chat_id, text := msg.content }
    match write with
    | .ok => [.transportWrite payload]
    | .error e => [.transportWrite payload, .errorSending e]

/-! ## Channel lifecycle controller (`start` / `stop`)

The `while self._running` loop of `start`, with its `websockets.connect`,
receive loop, exception handlers and `asyncio.sleep(5)` backoff, embedded as a
labelled transition system.  One `tick` is one time-unit of the backoff sleep;
`resume` is the coroutine reaching its next control point (the `while` test,
the `if self._running` test before the sleep, or the end of the sleep). -/

inductive Phase where
  | checkLoop
  | connecting
  | connected
  | backoffCheck
  | sleeping (k : Nat)
  | done
deriving DecidableEq, Repr

structure Ctrl where
  phase : Phase
  running : Bool
  conn : Bool
deriving DecidableEq, Repr

inductive Ev where
  | resume
  | connectOk
  | connectFail
  | frameOk
  | frameError
  | transportFail
  | cleanClose
  | tick
  | stopRequest
  | cancel
deriving DecidableEq, Repr

/-- One transition of the lifecycle controller.

* `stopRequest` is `stop()` from another task: it only sets
  `_running = False`, `_connected = False` (and closes the socket); it does
  not move the `start` coroutine, and in particular does not interrupt a
  pending `asyncio.sleep`.
* `cancel` is task cancellation: `CancelledError` at any await point either
  hits `except asyncio.CancelledError: break` or propagates, ending the loop.
* `frameError` is an exception inside `_handle_bridge_message`, caught by the
  inner `try` around the handler call: the receive loop keeps running.
* `transportFail` is an exception from the transport (connect/read failure),
  caught by `except Exception`: `_connected` is cleared and control reaches
  the `if self._running` backoff test.
* In `sleeping (k+1)`, a `tick` always decrements: the sleep runs to
  completion whatever `running` is. -/
def step (s : Ctrl) : Ev → Ctrl
  | .stopRequest => { s with running := false, conn := false }
  | .cancel => if s.phase = .done then s else { s with phase := .done }
  | .resume =>
    match s.phase with
    | .checkLoop => if s.running then { s with phase := .connecting } else { s with phase := .done }
    | .backoffCheck =>
      if s.running then { s with phase := .sleeping 5 } else { s with phase := .checkLoop }
    | .sleeping 0 => { s with phase := .checkLoop }
    | _ => s
  | .connectOk =>
    match s.phase with
    | .connecting => { s with phase := .connected, conn := true }
    | _ => s
  | .connectFail =>
    match s.phase with
    | .connecting => { s with phase := .backoffCheck, conn := false }
    | _ => s
  | .frameOk => s
  | .frameError => s
  | .transportFail =>
    match s.phase with
    | .connected => { s with phase := .backoffCheck, conn := false }
    | _ => s
  | .cleanClose =>
    match s.phase with
    | .connected => { s with phase := .checkLoop }
    | _ => s
  | .tick =>
    match s.phase with
    | .sleeping (k + 1) => { s with phase := .sleeping k }
    | _ => s

/-- Run the controller over a list of events. -/
def run (s : Ctrl) (evs : List Ev) : Ctrl :=
  evs.foldl step s

/-! ## Email fetch tool (`EmailFetchTool.execute`) -/

/-- The configuration fields `execute` reads (`config.schema.EmailConfig`);
an empty string models an unset (falsy) value. -/
structure EmailConfig where
  imap_host : String := ""
  imap_password : String := ""
deriving DecidableEq, Repr

/-- One message dict returned by the email channel's fetch helpers:
`msg["sender"]`, `msg.get("subject", ...)`, `msg["content"]`,
`msg.get("metadata", {}).get("date", ...)`. -/
structure EmailMsg where
  sender : String
  subject : Option String
  content : String
  meta_date : Option String
deriving DecidableEq, Repr

/-- Result of the awaited fetch call (`channel._fetch_messages` or
`channel.fetch_messages_between_dates`, both outside this core): a message
list on success, or the exception it raised. -/
inductive FetchOutcome where
  | ok (msgs : List EmailMsg)
  | exn (e : String)
deriving DecidableEq, Repr

/-- The limit `execute` passes to the fetch helpers: Python `max(1, limit)`. -/
def effectiveLimit (lim : Int) : Int :=
  max 1 lim

/-- The per-message lines of the result body (`enumerate(messages, 1)`). -/
def formatEmails : Nat → List EmailMsg → List String
  | _, [] => []
  | i, m :: rest =>
    ["--- Email " ++ toString i ++ " ---",
     "From: " ++ m.sender,
     "Subject: " ++ m.subject.getD "(no subject)",
     "Date: " ++ m.meta_date.getD "Unknown",
     "\n" ++ m.content ++ "\n"] ++ formatEmails (i + 1) rest

/-- Embedding of `EmailFetchTool.execute(mode, hours, limit)`.  `fetch`
stands for the external email channel: applied to the limit `execute`
passes, it yields the messages or the exception of that call (the same
helper is chosen by `mode`; its date arguments do not affect this control
flow).  The embedding is a total function into `String`: every fetch
exception is caught by the `try`/`except` and turned into an error string. -/
def execute (cfg : EmailConfig) (mode : String) (hours : Int) (lim : Int)
    (fetch : Int → FetchOutcome) : String :=
  if cfg.imap_host = "" || cfg.imap_password = "" then
    "Error: Email not configured. Set imap_host and imap_password in config."
  else if mode = "unread" ∨ mode = "recent" then
    match fetch (effectiveLimit lim) with
    | .exn e => "Error fetching emails: " ++ e
    | .ok msgs =>
      if msgs.isEmpty then
        let label := if mode = "unread" then "unread"
          else "from the last " ++ toString hours ++ " hours"
        "No " ++ label ++ " emails found."
      else
        String.intercalate "\n"
          (("Found " ++ toString msgs.length ++ " email(s):\n") :: formatEmails 1 msgs)
  else
    "Error: Unknown mode '" ++ mode ++ "'. Use 'unread' or 'recent'."

/-! ## Theorems settling the claims -/

/-- Claim C1: for every inbound envelope whose group flag is true, under every
configuration of the monitor set, the router never invokes the upstream
`_handle_message` (no `forward` action is emitted). -/
theorem C1_group_never_forwarded (cfg : WhatsAppConfig) (today : String)
    (st : ChanState) (d : BridgeData) (raw : String)
    (h : d.isGroup.getD false = true) :
    ∀ a ∈ (handleBridgeMessage cfg today st (some d) raw).2, a.isForward = false := by
  intro a ha
  unfold handleBridgeMessage at ha
  simp only [h] at ha
  repeat' split at ha
  all_goals try exact absurd trivial (by assumption)
  all_goals simp only [List.mem_cons, List.not_mem_nil, or_false] at ha
  all_goals rcases ha with rfl | rfl | rfl
  all_goals rfl

/-- Witness for C1 at the spec's group scenario envelope. -/
theorem C1_witness :
    ((handleBridgeMessage ⟨"", []⟩ "2026-02-10" ⟨true⟩
        (some { type := some "message", sender := some "G1@g.net",
                content := some "yo", isGroup := some true }) "").2.all
      (fun a => !a.isForward)) = true := by
  have h := C1_group_never_forwarded ⟨"", []⟩ "2026-02-10" ⟨true⟩
    { type := some "message", sender := some "G1@g.net",
      content := some "yo", isGroup := some true } "" (by decide)
  rw [List.all_eq_true]
  intro a ha
  simp [h a ha]

/-- Claim C2: for every group-flagged message envelope the router applies the
group filter to the group identity `data.get("sender", "")`: with an empty
monitor set every group's message is appended to the digest store (together
with its debug log); with a non-empty monitor set the message is appended
exactly when the identity is in the set, and otherwise only the routine
sender log is emitted (the message is dropped silently, in particular never
forwarded). -/
theorem C2_group_filter (cfg : WhatsAppConfig) (today : String) (st : ChanState)
    (d : BridgeData) (raw : String)
    (hmsg : d.type = some "message") (hg : d.isGroup.getD false = true) :
    (cfg.monitor_groups.isEmpty = true →
      (handleBridgeMessage cfg today st (some d) raw).2 =
        [.infoSender (d.sender.getD ""), .groupAppend (logGroupMessage today d),
         .debugLoggedGroup (d.sender.getD "unknown")]) ∧
    (cfg.monitor_groups.isEmpty = false → cfg.monitor_groups.contains (d.sender.getD "") = true →
      (handleBridgeMessage cfg today st (some d) raw).2 =
        [.infoSender (d.sender.getD ""), .groupAppend (logGroupMessage today d),
         .debugLoggedGroup (d.sender.getD "unknown")]) ∧
    (cfg.monitor_groups.isEmpty = false → cfg.monitor_groups.contains (d.sender.getD "") = false →
      (handleBridgeMessage cfg today st (some d) raw).2 =
        [.infoSender (d.sender.getD "")]) := by
  unfold handleBridgeMessage
  simp only [hmsg, hg]
  refine ⟨fun h1 => ?_, fun h1 h2 => ?_, fun h1 h2 => ?_⟩
  · simp [h1]
  · simp [h1, List.mem_of_elem_eq_true h2]
  · have h3 : d.sender.getD "" ∉ cfg.monitor_groups := by simpa using h2
    simp [h1, h3]

/-- Witness for C2: the spec's two concrete monitor-set configurations on the
group scenario envelope. -/
theorem C2_witness :
    (handleBridgeMessage ⟨"", ["G1@g.net"]⟩ "2026-02-10" ⟨true⟩
      (some { type := some "message", sender := some "G2@g.net",
              content := some "yo", isGroup := some true }) "").2 =
      [Action.infoSender "G2@g.net"] :=
  ((C2_group_filter ⟨"", ["G1@g.net"]⟩ "2026-02-10" ⟨true⟩
    { type := some "message", sender := some "G2@g.net",
      content := some "yo", isGroup := some true } "" (by decide) (by decide)).2.2
    (by decide) (by decide)).trans (by decide)

/-- Claim C3: for every non-group message envelope, the forwarded `sender_id`
prefers the legacy `pn` identifier when present (non-empty), else the opaque
`sender`, stripped of everything after the first `@`; the full unstripped
`sender` is passed as the reply-target `chat_id`, and the metadata carries the
envelope's id, timestamp and group flag. -/
theorem C3_direct_message_identity (cfg : WhatsAppConfig) (today : String)
    (st : ChanState) (d : BridgeData) (raw : String)
    (hmsg : d.type = some "message") (hg : d.isGroup.getD false = false) :
    (handleBridgeMessage cfg today st (some d) raw).2 =
      [Action.infoSender (d.sender.getD "")] ++
      (if d.content.getD "" = "[Voice Message]"
        then [Action.infoVoice (normalizeId (d.pn.getD "") (d.sender.getD ""))] else []) ++
      [Action.forward (normalizeId (d.pn.getD "") (d.sender.getD "")) (d.sender.getD "")
        (if d.content.getD "" = "[Voice Message]"
          then "[Voice Message: Transcription not available for WhatsApp yet]"
          else d.content.getD "")
        { message_id := d.id, timestamp := d.timestamp, is_group := false }] := by
  unfold handleBridgeMessage
  simp [hmsg, hg]

/-- Witness for C3: the spec's scenario envelope
`{"type":"message","sender":"123@x.net","pn":"456","content":"hi","isGroup":false}`
is forwarded as `handle_message("456", "123@x.net", "hi", {...})`. -/
theorem C3_witness :
    (handleBridgeMessage ⟨"", []⟩ "2026-02-10" ⟨true⟩
      (some { type := some "message", sender := some "123@x.net", pn := some "456",
              content := some "hi", isGroup := some false }) "").2 =
      [Action.infoSender "123@x.net",
       Action.forward "456" "123@x.net" "hi"
         { message_id := none, timestamp := none, is_group := false }] :=
  (C3_direct_message_identity ⟨"", []⟩ "2026-02-10" ⟨true⟩
    { type := some "message", sender := some "123@x.net", pn := some "456",
      content := some "hi", isGroup := some false } "" (by decide) (by decide)).trans
    (by decide)

/-- Counterexample to claim C4: on the spec's own scenario envelope
`{"type":"message","sender":"G1@g.net","content":"yo","isGroup":true}` with an
empty monitor set and UTC date 2026-02-10, the digest append goes to directory
`G1_at_g.net` with content `"yo"` as claimed, but the file written is
`2026-02-10.jsonl` — not `2026-02-10.ndjson` as the claim's layout states. -/
theorem C4_counterexample :
    (handleBridgeMessage ⟨"", []⟩ "2026-02-10" ⟨true⟩
      (some { type := some "message", sender := some "G1@g.net",
              content := some "yo", isGroup := some true }) "").2 =
      [Action.infoSender "G1@g.net",
       Action.groupAppend
         { dir := "G1_at_g.net", file := "2026-02-10.jsonl",
           entry := { ts := 0, sender := "", content := "yo" },
           line := dumpEntry { ts := 0, sender := "", content := "yo" } ++ "\n" },
       Action.debugLoggedGroup "G1@g.net"] ∧
    "2026-02-10.jsonl" ≠ "2026-02-10" ++ ".ndjson" := by
  constructor
  · decide
  · decide

/-- Claim C4 as amended: every appended group digest record for a group
envelope passing the filter is written to
`<base-dir>/<normalized-group-id>/<YYYY-MM-DD>.jsonl` (the code's extension is
`.jsonl`, not the claimed `.ndjson`), where the normalized group id replaces
every `@` of the raw group identity by `_at_`, the date partition is the UTC
date, and the line written is the JSON record
`{"ts": ..., "sender": ..., "content": ...}` followed by a newline. -/
theorem C4_digest_layout (cfg : WhatsAppConfig) (today : String) (st : ChanState)
    (d : BridgeData) (raw : String)
    (hmsg : d.type = some "message") (hg : d.isGroup.getD false = true)
    (hpass : (cfg.monitor_groups.isEmpty ||
              cfg.monitor_groups.contains (d.sender.getD "")) = true) :
    ∃ w : GroupLogWrite,
      Action.groupAppend w ∈ (handleBridgeMessage cfg today st (some d) raw).2 ∧
      w.dir = replaceAt (d.sender.getD "unknown") ∧
      w.file = today ++ ".jsonl" ∧
      w.entry = { ts := d.timestamp.getD 0, sender := d.pn.getD "",
                  content := d.content.getD "" } ∧
      w.line = dumpEntry w.entry ++ "\n" := by
  refine ⟨logGroupMessage today d, ?_, rfl, rfl, rfl, rfl⟩
  unfold handleBridgeMessage
  simp only [hmsg, hg]
  simp only [hpass]
  simp

/-- Witness for C4 at the spec's group scenario envelope. -/
theorem C4_witness :
    ∃ w : GroupLogWrite,
      Action.groupAppend w ∈ (handleBridgeMessage ⟨"", []⟩ "2026-02-10" ⟨true⟩
        (some { type := some "message", sender := some "G1@g.net",
                content := some "yo", isGroup := some true }) "").2 ∧
      w.dir = replaceAt ((some "G1@g.net").getD "unknown") ∧
      w.file = "2026-02-10" ++ ".jsonl" ∧
      w.entry = { ts := (none : Option Int).getD 0, sender := (none : Option String).getD "",
                  content := (some "yo").getD "" } ∧
      w.line = dumpEntry w.entry ++ "\n" :=
  C4_digest_layout ⟨"", []⟩ "2026-02-10" ⟨true⟩
    { type := some "message", sender := some "G1@g.net",
      content := some "yo", isGroup := some true } "" (by decide) (by decide) (by decide)

/-- Unfolding one event of a controller run. -/
theorem run_cons (s : Ctrl) (e : Ev) (evs : List Ev) :
    run s (e :: evs) = run (step s e) evs := rfl

/-- A controller run over concatenated event lists. -/
theorem run_append (s : Ctrl) (l1 l2 : List Ev) :
    run s (l1 ++ l2) = run (run s l1) l2 := by
  simp [run, List.foldl_append]

/-- The backoff sleep always runs to completion: `k` ticks take
`sleeping k` to `sleeping 0` whatever the `running` flag is. -/
theorem run_replicate_tick (k : Nat) (r c : Bool) :
    run ⟨.sleeping k, r, c⟩ (List.replicate k .tick) = ⟨.sleeping 0, r, c⟩ := by
  induction k with
  | zero => rfl
  | succ n ih =>
    rw [List.replicate_succ, run_cons]
    exact ih

/-- One step preserves "stopped and not connecting". -/
theorem step_preserves_stopped (s : Ctrl) (e : Ev) (hr : s.running = false)
    (hp : s.phase ≠ .connecting) :
    (step s e).running = false ∧ (step s e).phase ≠ .connecting := by
  obtain ⟨p, r, c⟩ := s
  simp only at hr
  subst hr
  cases e <;> cases p <;>
    first
      | (rename_i k; cases k <;> simp_all [step])
      | simp_all [step]

/-- Once the running flag is cleared, no run of the controller ever reaches
the `connecting` phase again. -/
theorem run_stopped (evs : List Ev) (s : Ctrl) (hr : s.running = false)
    (hp : s.phase ≠ .connecting) : (run s evs).phase ≠ .connecting := by
  induction evs generalizing s with
  | nil => exact hp
  | cons e rest ih =>
    have h := step_preserves_stopped s e hr hp
    rw [run_cons]
    exact ih _ h.1 h.2

/-- Counterexample to claim C5: `stop()` only clears the running flag; it does
not interrupt the pending `asyncio.sleep(5)`.  With a stop requested at the
start of the backoff wait, the controller is still inside the sleep one tick
later (phase `sleeping 4`), and still after four ticks (phase `sleeping 1`):
the stop request is not observed promptly. -/
theorem C5_counterexample :
    run ⟨.sleeping 5, true, false⟩ [.stopRequest, .tick] = ⟨.sleeping 4, false, false⟩ ∧
    run ⟨.sleeping 5, true, false⟩ [.stopRequest, .tick, .tick, .tick, .tick] =
      ⟨.sleeping 1, false, false⟩ ∧
    Phase.sleeping 4 ≠ Phase.done ∧ Phase.sleeping 4 ≠ Phase.checkLoop := by
  refine ⟨by decide, by decide, by decide, by decide⟩

/-- Claim C5 as amended: on a transport failure while running, the controller
enters the backoff and attempts `connecting` again after exactly the fixed
5-tick delay (never earlier); a `stop()` raised during the backoff wait does
not interrupt the sleep — the controller completes the remaining ticks and
only then observes the stop and terminates — but it does guarantee that no
further `connecting` attempt ever occurs. -/
theorem C5_backoff_behaviour :
    (∀ r c, step ⟨.connected, r, c⟩ .transportFail = ⟨.backoffCheck, r, false⟩) ∧
    (step ⟨.backoffCheck, true, false⟩ .resume = ⟨.sleeping 5, true, false⟩) ∧
    (∀ j : Fin 6, run ⟨.sleeping 5, true, false⟩ (List.replicate (j : Nat) .tick) =
      ⟨.sleeping (5 - (j : Nat)), true, false⟩) ∧
    (run ⟨.sleeping 5, true, false⟩ (List.replicate 5 .tick ++ [.resume, .resume]) =
      ⟨.connecting, true, false⟩) ∧
    (∀ k c, run ⟨.sleeping k, false, c⟩ (List.replicate k .tick ++ [.resume, .resume]) =
      ⟨.done, false, c⟩) ∧
    (∀ evs s, s.running = false → s.phase ≠ .connecting →
      (run s evs).phase ≠ .connecting) := by
  refine ⟨by decide, by decide, by decide, by decide, ?_, run_stopped⟩
  intro k c
  rw [run_append, run_replicate_tick]
  rfl

/-- Witness for C5: a concrete stopped controller mid-backoff never reaches
`connecting` over a concrete event sequence. -/
theorem C5_witness :
    (run ⟨.sleeping 5, false, false⟩
      [.tick, .tick, .tick, .tick, .tick, .resume, .resume]).phase ≠ .connecting :=
  C5_backoff_behaviour.2.2.2.2.2
    [.tick, .tick, .tick, .tick, .tick, .resume, .resume]
    ⟨.sleeping 5, false, false⟩ (by decide) (by decide)

/-- Claim C6: for every malformed (undecodable) frame the handler returns
normally with the channel state unchanged — the connection-state mirror is
unaffected and nothing is forwarded — emitting only a warning identified by
the first 100 characters of the offending input; since the handler returns a
value for every input, no exception crosses the handler boundary and the
receive loop stays in the `connected` phase on such a frame. -/
theorem C6_malformed_frame (cfg : WhatsAppConfig) (today : String)
    (st : ChanState) (raw : String) :
    handleBridgeMessage cfg today st none raw =
      (st, [Action.warnInvalidJson (excerpt100 raw)]) ∧
    (∀ r c, step ⟨.connected, r, c⟩ .frameOk = ⟨.connected, r, c⟩) :=
  ⟨rfl, by decide⟩

/-- Claim C7: an exception while handling a single frame is caught by the
per-frame handler guard: the receive loop stays in the `connected` phase with
all controller fields unchanged (for any running/connected flags), exactly as
for a successfully handled frame; only a transport-level error moves the
controller out of `connected`, into the backoff path with the connected flag
cleared. -/
theorem C7_frame_errors_isolated :
    (∀ r c, step ⟨.connected, r, c⟩ .frameError = ⟨.connected, r, c⟩) ∧
    (∀ r c, step ⟨.connected, r, c⟩ .frameOk = ⟨.connected, r, c⟩) ∧
    (∀ r c, step ⟨.connected, r, c⟩ .transportFail = ⟨.backoffCheck, r, false⟩) := by
  refine ⟨by decide, by decide, by decide⟩

/-- Claim C8: `send` never raises to its caller.  When the socket is absent or
the channel is not connected it only logs a warning and performs no transport
write; when connected, a successful write emits exactly the encoded
`{"type": "send", "to": chat_id, "text": content}` frame, and a failing write
is caught and logged (the error becomes a logged action, not a propagated
exception — the embedding returns a plain value in every case). -/
theorem C8_send_never_raises (msg : OutboundMessage) :
    (∀ wsPresent connected w, wsPresent = false ∨ connected = false →
      send wsPresent connected msg w = [SendAction.warnNotConnected]) ∧
    (send true true msg .ok =
      [SendAction.transportWrite ⟨"send", msg.chat_id, msg.content⟩]) ∧
    (∀ e, send true true msg (.error e) =
      [SendAction.transportWrite ⟨"send", msg.chat_id, msg.content⟩,
       SendAction.errorSending e]) := by
  refine ⟨?_, rfl, fun e => rfl⟩
  rintro wsPresent connected w (rfl | rfl)
  · rfl
  · cases wsPresent <;> rfl

/-- Witness for C8: a concrete disconnected send is a warning-only no-op. -/
theorem C8_witness :
    send false false ⟨"123@x.net", "hello"⟩ .ok = [SendAction.warnNotConnected] :=
  (C8_send_never_raises ⟨"123@x.net", "hello"⟩).1 false false .ok (Or.inl rfl)

/-- Claim C9: a group digest append never fails on missing envelope fields:
for every envelope the entry's `sender` field records the envelope's `pn`
(empty string when absent) — not the group jid —, `ts` defaults to 0,
`content` to the empty string, and the owning directory comes from the
`sender` field with default `"unknown"`; in particular a group envelope with
no sender, content, timestamp or pn at all is still appended, to directory
`unknown`, with the all-default entry. -/
theorem C9_group_log_defaults (today : String) :
    (∀ d : BridgeData, (logGroupMessage today d).entry.sender = d.pn.getD "" ∧
      (logGroupMessage today d).entry.ts = d.timestamp.getD 0 ∧
      (logGroupMessage today d).entry.content = d.content.getD "" ∧
      (logGroupMessage today d).dir = replaceAt (d.sender.getD "unknown")) ∧
    ((handleBridgeMessage ⟨"", []⟩ today ⟨true⟩
        (some { type := some "message", isGroup := some true }) "").2 =
      [Action.infoSender "",
       Action.groupAppend
         { dir := "unknown"
           file := today ++ ".jsonl"
           entry := { ts := 0, sender := "", content := "" }
           line := dumpEntry { ts := 0, sender := "", content := "" } ++ "\n" },
       Action.debugLoggedGroup "unknown"]) := by
  constructor
  · intro d
    exact ⟨rfl, rfl, rfl, rfl⟩
  · have h : replaceAt "unknown" = "unknown" := by decide
    unfold handleBridgeMessage
    simp [logGroupMessage, h]

/-- Claim C10: `EmailFetchTool.execute` always returns a result string and
never raises: the effective fetch limit passed on is `max(1, limit)`, hence
at least 1 (two fetch implementations agreeing on limits ≥ 1 give identical
results); missing IMAP configuration, an unrecognized mode, and an exception
thrown by the fetch each produce a string beginning with "Error" rather than
propagating. -/
theorem C10_execute_errors (cfg : EmailConfig) (mode : String) (hours lim : Int)
    (fetch : Int → FetchOutcome) :
    (1 ≤ effectiveLimit lim) ∧
    (cfg.imap_host = "" ∨ cfg.imap_password = "" →
      execute cfg mode hours lim fetch =
        "Error: Email not configured. Set imap_host and imap_password in config.") ∧
    (cfg.imap_host ≠ "" → cfg.imap_password ≠ "" → mode ≠ "unread" → mode ≠ "recent" →
      execute cfg mode hours lim fetch =
        "Error: Unknown mode '" ++ mode ++ "'. Use 'unread' or 'recent'.") ∧
    (∀ e, cfg.imap_host ≠ "" → cfg.imap_password ≠ "" →
      (mode = "unread" ∨ mode = "recent") → fetch (effectiveLimit lim) = .exn e →
      execute cfg mode hours lim fetch = "Error fetching emails: " ++ e) ∧
    (∀ g : Int → FetchOutcome, (∀ n, 1 ≤ n → fetch n = g n) →
      execute cfg mode hours lim fetch = execute cfg mode hours lim g) := by
  refine ⟨le_max_left 1 lim, ?_, ?_, ?_, ?_⟩
  · rintro (h | h) <;> simp [execute, h]
  · intro h1 h2 h3 h4
    simp [execute, h1, h2, h3, h4]
  · rintro e h1 h2 (rfl | rfl) hf <;> simp [execute, h1, h2, hf]
  · intro g hg
    unfold execute
    rw [hg (effectiveLimit lim) (le_max_left 1 lim)]

/-- Witness for C10: with no IMAP configuration, a concrete call returns the
configuration error string. -/
theorem C10_witness :
    execute ⟨"", ""⟩ "unread" 24 50 (fun _ => FetchOutcome.ok []) =
      "Error: Email not configured. Set imap_host and imap_password in config." :=
  (C10_execute_errors ⟨"", ""⟩ "unread" 24 50 (fun _ => FetchOutcome.ok [])).2.1 (Or.inl rfl)

end Nanobot
